import Mathlib

/-!
Verification of the reconnecting WebSocket client core
(`packages/core/src/WebSocketClient.ts`) against its natural-language
specification.

The TypeScript source is shallowly embedded as follows.

* Numeric option fields (`initialDelay`, `maxDelay`, `backoffMultiplier`)
  and the random source are modelled as exact rationals (`ℚ`); the delay
  algorithm only uses `*`, `min`, `max`, `+`, `^`.
* The mutable fields of `WebSocketClientImpl`
  (`reconnectAttemptsCount`, `isCurrentlyReconnecting`, `manualClose`,
  `reconnectTimeoutId`, `ws`) together with the two unbounded queues
  (`messageQueue`, `eventQueue`) are collected into a `ClientState`
  record.  The queues are lists that only grow at the tail, matching
  `Queue.unsafeOffer` on unbounded queues (non-blocking, never fails).
* The transport's serialized callbacks (`onopen`, `onclose`, `onerror`,
  `onmessage`), the reconnect timer firing (`performReconnection`), and
  the user-facing `close()` call are the inputs of a step function
  `stepInput`; an execution is a fold `runInputs` over an input list,
  matching the single-threaded cooperative timeline of the source.
* `setTimeout` is modelled by a pending-timer flag: `clearTimeout`
  resets it, and a timer that is not pending cannot fire.  The
  real-time duration handed to `setTimeout` (the value of
  `calculateReconnectionDelay`) does not influence the state machine
  and is verified separately as the pure function it is in the source.
* The original socket created in `makeWebSocketClient` is distinguished
  from the current (possibly replaced-by-reconnection) socket by the
  fields `curIsOrig` / `origState`, because the scope finalizer in the
  source captures the original `ws` local variable rather than
  `client.ws`.
-/

namespace EffectWebSocket

/-- `WebSocketMessage = string | ArrayBuffer | Blob` from the source.
`text` is a string payload, `binary` an `ArrayBuffer`, `blob` a `Blob`. -/
inductive Msg where
  | text (s : String)
  | binary (bytes : List Nat)
  | blob (bytes : List Nat)
deriving DecidableEq, Repr

/-- `message instanceof Blob` from `WebSocketClientImpl.send`. -/
def Msg.isBlob : Msg → Bool
  | .blob _ => true
  | _ => false

/-- The four transport ready states (`WebSocket.CONNECTING/OPEN/CLOSING/CLOSED`). -/
inductive ReadyState where
  | CONNECTING
  | OPEN
  | CLOSING
  | CLOSED
deriving DecidableEq, Repr

/-- `WebSocketEvent` from the source: a tagged record with optional
`data`, `code`, `reason`, `attempt` fields, rendered as a sum whose
constructors carry exactly the fields the source populates for each tag. -/
inductive WsEvent where
  | opened
  | closed (code : Nat) (reason : String)
  | errored
  | message (data : Msg)
  | reconnecting (attempt : Nat)
  | reconnectFailed (attempt : Nat)
deriving DecidableEq, Repr

/-- `ReconnectionOptions` from the source. -/
structure ReconnectionOptions where
  enabled : Bool
  initialDelay : ℚ
  maxDelay : ℚ
  maxAttempts : Nat
  backoffMultiplier : ℚ
  jitter : Bool

/-- The default options used both by the `WebSocketClientImpl`
constructor and by `makeWebSocketClient`. -/
def defaultReconnectionOptions : ReconnectionOptions :=
  { enabled := false
    initialDelay := 1000
    maxDelay := 30000
    maxAttempts := 10
    backoffMultiplier := 2
    jitter := true }

/-- `WebSocketClientImpl.calculateReconnectionDelay`, with the mutable
field `this.reconnectAttemptsCount` passed explicitly as
`attemptsCount` and `Math.random()` passed explicitly as `rand`
(`Math.random()` ranges over `[0, 1)`; theorems assume `0 ≤ rand ≤ 1`).

Source:
`attempt = reconnectAttemptsCount - 1`;
`delay = initialDelay * backoffMultiplier ^ attempt`;
`delay = min(delay, maxDelay)`;
if `jitter` then `jitterAmount = delay * 0.25` and
`delay += (rand - 0.5) * 2 * jitterAmount`;
return `max(0, delay)`. -/
def calculateReconnectionDelay (o : ReconnectionOptions) (attemptsCount : Nat)
    (rand : ℚ) : ℚ :=
  let attempt := attemptsCount - 1
  let delay := o.initialDelay * o.backoffMultiplier ^ attempt
  let delay := min delay o.maxDelay
  let delay :=
    if o.jitter then delay + (rand - 1/2) * 2 * (delay * (1/4)) else delay
  max 0 delay

/-- C1. For every attempt number `n ≥ 1` and every policy with
`backoffMultiplier ≥ 1` and `0 ≤ initialDelay ≤ maxDelay`: with jitter
disabled the computed delay equals
`min(initialDelay * backoffMultiplier ^ (n-1), maxDelay)`; with jitter
enabled, for every value of the random source in `[0,1]` the computed
delay is nonnegative and lies within `[3/4, 5/4]` of that clamped value. -/
theorem c1_backoff (o : ReconnectionOptions) (n : Nat) (r : ℚ)
    (hn : 1 ≤ n) (hm : 1 ≤ o.backoffMultiplier)
    (h0 : 0 ≤ o.initialDelay) (h1 : o.initialDelay ≤ o.maxDelay)
    (hr0 : 0 ≤ r) (hr1 : r ≤ 1) :
    (o.jitter = false →
      calculateReconnectionDelay o n r =
        min (o.initialDelay * o.backoffMultiplier ^ (n - 1)) o.maxDelay) ∧
    (o.jitter = true →
      0 ≤ calculateReconnectionDelay o n r ∧
      3/4 * min (o.initialDelay * o.backoffMultiplier ^ (n - 1)) o.maxDelay ≤
        calculateReconnectionDelay o n r ∧
      calculateReconnectionDelay o n r ≤
        5/4 * min (o.initialDelay * o.backoffMultiplier ^ (n - 1)) o.maxDelay) := by
  have hmpos : (0:ℚ) ≤ o.backoffMultiplier := le_trans zero_le_one hm
  have hbase : 0 ≤ o.initialDelay * o.backoffMultiplier ^ (n - 1) :=
    mul_nonneg h0 (pow_nonneg hmpos _)
  have hd : 0 ≤ min (o.initialDelay * o.backoffMultiplier ^ (n - 1)) o.maxDelay :=
    le_min hbase (le_trans h0 h1)
  set d := min (o.initialDelay * o.backoffMultiplier ^ (n - 1)) o.maxDelay with hdef
  constructor
  · intro hj
    simp only [calculateReconnectionDelay, hj, if_false, ← hdef]
    exact max_eq_right hd
  · intro hj
    simp only [calculateReconnectionDelay, hj, if_true, ← hdef]
    have hlow : 3/4 * d ≤ d + (r - 1/2) * 2 * (d * (1/4)) := by nlinarith
    have hhigh : d + (r - 1/2) * 2 * (d * (1/4)) ≤ 5/4 * d := by nlinarith
    have hnn : (0:ℚ) ≤ d + (r - 1/2) * 2 * (d * (1/4)) := by nlinarith
    refine ⟨le_max_left _ _, ?_, ?_⟩
    · calc 3/4 * d ≤ d + (r - 1/2) * 2 * (d * (1/4)) := hlow
        _ ≤ max 0 (d + (r - 1/2) * 2 * (d * (1/4))) := le_max_right _ _
    · rw [max_eq_right hnn]
      exact hhigh

/-- Concrete options used to instantiate `c1_backoff`. -/
def c1Opts : ReconnectionOptions :=
  { enabled := true
    initialDelay := 100
    maxDelay := 200
    maxAttempts := 10
    backoffMultiplier := 2
    jitter := true }

theorem c1_backoff_witness :
    1 ≤ 2 ∧ 1 ≤ c1Opts.backoffMultiplier ∧
    0 ≤ c1Opts.initialDelay ∧ c1Opts.initialDelay ≤ c1Opts.maxDelay ∧
    (0:ℚ) ≤ 1 ∧ (1:ℚ) ≤ 1 ∧
    ((c1Opts.jitter = false →
      calculateReconnectionDelay c1Opts 2 1 =
        min (c1Opts.initialDelay * c1Opts.backoffMultiplier ^ (2 - 1)) c1Opts.maxDelay) ∧
    (c1Opts.jitter = true →
      0 ≤ calculateReconnectionDelay c1Opts 2 1 ∧
      3/4 * min (c1Opts.initialDelay * c1Opts.backoffMultiplier ^ (2 - 1)) c1Opts.maxDelay ≤
        calculateReconnectionDelay c1Opts 2 1 ∧
      calculateReconnectionDelay c1Opts 2 1 ≤
        5/4 * min (c1Opts.initialDelay * c1Opts.backoffMultiplier ^ (2 - 1)) c1Opts.maxDelay)) :=
  ⟨by decide, by decide, by decide, by decide, by decide, by decide,
    c1_backoff c1Opts 2 1 (by decide) (by decide) (by decide) (by decide)
      (by decide) (by decide)⟩

/-- The mutable state of one `WebSocketClientImpl` together with the two
unbounded queues.  `timerPending` models `reconnectTimeoutId` being set;
`curState` is `this.ws.readyState`; `curIsOrig` records whether
`this.ws` is still the socket created in `makeWebSocketClient` (whose
state is tracked separately in `origState`, because the scope finalizer
captures it); `wiredByReconnect` records whether the current socket's
handlers were installed by `performReconnection` (whose `onerror`
handler, unlike the one from `setupEventListeners`, emits no event). -/
structure ClientState where
  reconnectAttemptsCount : Nat
  isCurrentlyReconnecting : Bool
  manualClose : Bool
  timerPending : Bool
  curState : ReadyState
  curIsOrig : Bool
  origState : ReadyState
  wiredByReconnect : Bool
  events : List WsEvent
  messages : List Msg
deriving DecidableEq, Repr

/-- `Queue.unsafeOffer(this.eventQueue, e)`: non-blocking tail append. -/
def pushEvent (s : ClientState) (e : WsEvent) : ClientState :=
  { s with events := s.events ++ [e] }

/-- `Queue.unsafeOffer(this.messageQueue, m)`: non-blocking tail append. -/
def pushMessage (s : ClientState) (m : Msg) : ClientState :=
  { s with messages := s.messages ++ [m] }

/-- A transport-level ready-state change of the current socket; when the
current socket is still the original one, the original's tracked state
changes with it (they are the same handle). -/
def setCur (s : ClientState) (st : ReadyState) : ClientState :=
  { s with curState := st
           origState := if s.curIsOrig then st else s.origState }

/-- `WebSocketClientImpl.attemptReconnection`.  The computed delay
(`calculateReconnectionDelay`) only fixes the real-time duration of the
scheduled timer, which the untimed model abstracts into the
`timerPending` flag; the timer later firing is the explicit input
`Input.timerFires`. -/
def attemptReconnection (o : ReconnectionOptions) (s : ClientState) : ClientState :=
  if s.isCurrentlyReconnecting || s.manualClose then s
  else if 0 < o.maxAttempts ∧ o.maxAttempts ≤ s.reconnectAttemptsCount then
    pushEvent s (WsEvent.reconnectFailed s.reconnectAttemptsCount)
  else
    let s := { s with isCurrentlyReconnecting := true
                      reconnectAttemptsCount := s.reconnectAttemptsCount + 1
                      timerPending := true }
    pushEvent s (WsEvent.reconnecting s.reconnectAttemptsCount)

/-- The `onopen` handler (identical in `setupEventListeners` and
`performReconnection`): reset the reconnection status and emit `open`. -/
def handleOpen (s : ClientState) : ClientState :=
  pushEvent
    { setCur s ReadyState.OPEN with
        isCurrentlyReconnecting := false
        reconnectAttemptsCount := 0 }
    WsEvent.opened

/-- The `onclose` handler (identical in `setupEventListeners` and
`performReconnection`): emit `close{code, reason}`, then attempt
reconnection if not manually closed and the policy is enabled. -/
def handleClose (o : ReconnectionOptions) (s : ClientState)
    (code : Nat) (reason : String) : ClientState :=
  let s := pushEvent (setCur s ReadyState.CLOSED) (WsEvent.closed code reason)
  if !s.manualClose && o.enabled then attemptReconnection o s else s

/-- The `onerror` handler: the `setupEventListeners` version emits an
`error` event; the version installed by `performReconnection` only
clears the connect timeout and emits nothing. -/
def handleError (s : ClientState) : ClientState :=
  if s.wiredByReconnect then s else pushEvent s WsEvent.errored

/-- The `onmessage` handler (identical in both wirings): push the
payload to the message queue, then emit a `message` event carrying the
same payload. -/
def handleMessage (s : ClientState) (m : Msg) : ClientState :=
  pushEvent (pushMessage s m) (WsEvent.message m)

/-- `WebSocketClientImpl.performReconnection`, run when the scheduled
timer fires.  `dialOk` distinguishes whether `new WebSocket(url)`
returns a (CONNECTING) handle or throws synchronously: on success the
current socket is replaced and re-wired (note that
`isCurrentlyReconnecting` is NOT reset here — only a later `onopen`
resets it); on a synchronous throw the catch block resets
`isCurrentlyReconnecting` and re-enters `attemptReconnection` if still
enabled and not manually closed. -/
def performReconnection (o : ReconnectionOptions) (s : ClientState)
    (dialOk : Bool) : ClientState :=
  if dialOk then
    { s with curState := ReadyState.CONNECTING
             curIsOrig := false
             wiredByReconnect := true }
  else
    let s := { s with isCurrentlyReconnecting := false }
    if !s.manualClose && o.enabled then attemptReconnection o s else s

/-- `WebSocketClientImpl.close`: set the manual-close flag, clear any
pending reconnect timer, then request the transport's close (which
moves a CONNECTING/OPEN socket to CLOSING; closing an already
closing/closed socket is a no-op). -/
def closeClient (s : ClientState) : ClientState :=
  let s := { s with manualClose := true, timerPending := false }
  if s.curState = ReadyState.CONNECTING ∨ s.curState = ReadyState.OPEN then
    setCur s ReadyState.CLOSING
  else s

/-- The serialized inputs that drive one client: the four transport
callbacks of the current socket, the reconnect timer firing, and the
user calling `close()`. -/
inductive Input where
  | wsOpen
  | wsClose (code : Nat) (reason : String)
  | wsError
  | wsMessage (m : Msg)
  | timerFires (dialOk : Bool)
  | closeCall
deriving DecidableEq, Repr

/-- One step of the client on the single-threaded timeline.  A timer
that is not pending cannot fire (`clearTimeout` semantics). -/
def stepInput (o : ReconnectionOptions) (s : ClientState) : Input → ClientState
  | Input.wsOpen => handleOpen s
  | Input.wsClose code reason => handleClose o s code reason
  | Input.wsError => handleError s
  | Input.wsMessage m => handleMessage s m
  | Input.timerFires dialOk =>
      if s.timerPending then
        performReconnection o { s with timerPending := false } dialOk
      else s
  | Input.closeCall => closeClient s

/-- Run a list of serialized inputs. -/
def runInputs (o : ReconnectionOptions) : ClientState → List Input → ClientState
  | s, [] => s
  | s, i :: l => runInputs o (stepInput o s i) l

/-- The client state right after `new WebSocketClientImpl(...)` and
`client.setupEventListeners()` in `makeWebSocketClient`: fresh counters
and flags, empty queues, the just-created original socket CONNECTING. -/
def initState : ClientState :=
  { reconnectAttemptsCount := 0
    isCurrentlyReconnecting := false
    manualClose := false
    timerPending := false
    curState := ReadyState.CONNECTING
    curIsOrig := true
    origState := ReadyState.CONNECTING
    wiredByReconnect := false
    events := []
    messages := [] }

/-- The canonical established-connection state: the initial socket has
opened. -/
def liveState : ClientState := handleOpen initState

/-- The finalizer registered with `Scope.addFinalizer` in
`makeWebSocketClient`.  Faithful to the source, the ready-state check
and the `close()` request are performed on the socket captured by the
closure — the ORIGINAL `ws` local variable — not on `client.ws`. -/
def scopeFinalizer (s : ClientState) : ClientState :=
  let s := { s with manualClose := true, timerPending := false }
  if s.origState = ReadyState.OPEN ∨ s.origState = ReadyState.CONNECTING then
    let s := { s with origState := ReadyState.CLOSING }
    if s.curIsOrig then { s with curState := ReadyState.CLOSING } else s
  else s

/-- How the initial dial of `makeWebSocketClient` can go:
`constructorThrows` — `new WebSocket(url)` throws synchronously
(invalid URL); `opens` — the socket fires `open`; `failsErrorClose` —
the socket fires `error` and then `close` without ever opening;
`timesOut` — neither `open` nor `error` within the 10-second window. -/
inductive InitialDial where
  | constructorThrows
  | opens
  | failsErrorClose (code : Nat) (reason : String)
  | timesOut
deriving DecidableEq, Repr

/-- Observable outcome of `makeWebSocketClient`: the construction
result surfaced to the caller (`none` = success, `some reason` = a
`WebSocketConnectionError`), the state of the client machinery at the
point the construction effect resolves (`none` when the socket/client
were never created), and whether the scope finalizer was registered
(it is registered only after the open-wait succeeds). -/
structure MakeResult where
  errorReason : Option String
  clientState : Option ClientState
  finalizerRegistered : Bool
deriving DecidableEq, Repr

/-- `makeWebSocketClient`, indexed by how the initial dial goes.  For
`failsErrorClose` the `error` event both resumes the open-wait with a
`WebSocketConnectionError` and runs the client's `onerror` handler, and
the subsequent `close` event still runs the client's `onclose` handler
(the `WebSocketClientImpl` handlers stay attached even though
construction already failed). -/
def makeWebSocketClient (o : ReconnectionOptions) (d : InitialDial) : MakeResult :=
  match d with
  | InitialDial.constructorThrows =>
      { errorReason := some "Invalid WebSocket URL"
        clientState := none
        finalizerRegistered := false }
  | InitialDial.opens =>
      { errorReason := none
        clientState := some (stepInput o initState Input.wsOpen)
        finalizerRegistered := true }
  | InitialDial.failsErrorClose code reason =>
      { errorReason := some "Failed to establish WebSocket connection"
        clientState :=
          some (runInputs o initState [Input.wsError, Input.wsClose code reason])
        finalizerRegistered := false }
  | InitialDial.timesOut =>
      { errorReason := some "WebSocket connection timeout"
        clientState := some initState
        finalizerRegistered := false }

/-- `WebSocketSendError` from the source. -/
structure WebSocketSendError where
  reason : String
deriving DecidableEq, Repr

/-- `WebSocketClientImpl.send`, with the transport's behaviour passed
explicitly: `sendFault = some r` means a synchronous `this.ws.send`
call would throw an error with message `r`.  A `Blob` payload is
converted asynchronously (`message.arrayBuffer().then(...)`), so no
synchronous transport send happens for it and `Effect.try` sees no
fault.  The client state is returned unchanged alongside the result:
`send` touches no field and no queue (no buffering). -/
def send (s : ClientState) (m : Msg) (sendFault : Option String) :
    ClientState × Except WebSocketSendError Unit :=
  if s.curState = ReadyState.OPEN then
    match m with
    | Msg.blob _ => (s, Except.ok ())
    | _ =>
      match sendFault with
      | some r => (s, Except.error ⟨r⟩)
      | none => (s, Except.ok ())
  else (s, Except.error ⟨"WebSocket is not connected"⟩)

/-- Whether a send result is a success. -/
def sendOk : Except WebSocketSendError Unit → Bool
  | Except.ok _ => true
  | Except.error _ => false

/-- Number of `reconnecting` events in an event list. -/
def reconCount (l : List WsEvent) : Nat :=
  l.countP fun e => match e with
    | WsEvent.reconnecting _ => true
    | _ => false

/-- Number of `reconnect_failed` events in an event list. -/
def failedCount (l : List WsEvent) : Nat :=
  l.countP fun e => match e with
    | WsEvent.reconnectFailed _ => true
    | _ => false

/-- The payloads of the `message` events of an event list, in order. -/
def msgEventPayloads (l : List WsEvent) : List Msg :=
  l.filterMap fun e => match e with
    | WsEvent.message d => some d
    | _ => none

theorem reconCount_append (l₁ l₂ : List WsEvent) :
    reconCount (l₁ ++ l₂) = reconCount l₁ + reconCount l₂ := by
  simp [reconCount, List.countP_append]

theorem failedCount_append (l₁ l₂ : List WsEvent) :
    failedCount (l₁ ++ l₂) = failedCount l₁ + failedCount l₂ := by
  simp [failedCount, List.countP_append]

theorem attemptReconnection_noop_of_reconnecting (o : ReconnectionOptions)
    (s : ClientState) (h : s.isCurrentlyReconnecting = true) :
    attemptReconnection o s = s := by
  simp [attemptReconnection, h]

/-- After `close()` (or the finalizer) has set the manual-close flag, no
step ever resets it and no step emits a `reconnecting` event. -/
theorem manualClose_step (o : ReconnectionOptions) (s : ClientState) (i : Input)
    (h : s.manualClose = true) :
    (stepInput o s i).manualClose = true ∧
    reconCount (stepInput o s i).events = reconCount s.events := by
  cases i with
  | wsOpen =>
      simp [stepInput, handleOpen, pushEvent, setCur, h, reconCount_append,
        reconCount]
  | wsClose code reason =>
      simp [stepInput, handleClose, pushEvent, setCur, h, reconCount_append,
        reconCount]
  | wsError =>
      by_cases hw : s.wiredByReconnect = true <;>
        simp [stepInput, handleError, pushEvent, h, hw, reconCount_append,
          reconCount]
  | wsMessage m =>
      simp [stepInput, handleMessage, pushEvent, pushMessage, h,
        reconCount_append, reconCount]
  | timerFires dialOk =>
      by_cases ht : s.timerPending = true
      · cases dialOk <;>
          simp [stepInput, performReconnection, ht, h]
      · simp [stepInput, ht, h]
  | closeCall =>
      by_cases hc : s.curState = ReadyState.CONNECTING ∨ s.curState = ReadyState.OPEN <;>
        simp [stepInput, closeClient, setCur, hc]

theorem manualClose_run (o : ReconnectionOptions) (l : List Input) :
    ∀ s : ClientState, s.manualClose = true →
    (runInputs o s l).manualClose = true ∧
    reconCount (runInputs o s l).events = reconCount s.events := by
  induction l with
  | nil => intro s h; exact ⟨h, rfl⟩
  | cons i l ih =>
      intro s h
      have hs := manualClose_step o s i h
      have hr := ih (stepInput o s i) hs.1
      exact ⟨hr.1, by rw [runInputs, hr.2, hs.2]⟩

/-- C5. In every execution in which `close()` is invoked — whatever the
state at that point, including a pending reconnection timer or a dial
in flight — the call sets the manual-close flag, cancels the pending
timer, and zero `reconnecting` events are emitted by any sequence of
subsequent steps: the count of `reconnecting` events on the event
channel never grows past its value at the close call. -/
theorem c5_close_suppresses (o : ReconnectionOptions) (s : ClientState)
    (l : List Input) :
    (stepInput o s Input.closeCall).manualClose = true ∧
    (stepInput o s Input.closeCall).timerPending = false ∧
    reconCount (runInputs o (stepInput o s Input.closeCall) l).events =
      reconCount s.events := by
  have hfields : (stepInput o s Input.closeCall).manualClose = true ∧
      (stepInput o s Input.closeCall).timerPending = false ∧
      (stepInput o s Input.closeCall).events = s.events := by
    by_cases hc : s.curState = ReadyState.CONNECTING ∨ s.curState = ReadyState.OPEN <;>
      simp [stepInput, closeClient, setCur, hc]
  have hr := manualClose_run o l (stepInput o s Input.closeCall) hfields.1
  exact ⟨hfields.1, hfields.2.1, by rw [hr.2, hfields.2.2]⟩

/-- C8. `send` fails exactly when the transport is not `OPEN` at call
time, or when a synchronous transport send is performed (non-`Blob`
payload) and it faults; and it never mutates the client state — no
queue is touched, nothing is buffered for later. -/
theorem c8_send_iff (s : ClientState) (m : Msg) (fault : Option String) :
    (sendOk (send s m fault).2 = false ↔
      (s.curState ≠ ReadyState.OPEN ∨ (m.isBlob = false ∧ fault ≠ none))) ∧
    (send s m fault).1 = s := by
  by_cases h : s.curState = ReadyState.OPEN <;> cases m <;> cases fault <;>
    simp [send, sendOk, Msg.isBlob, h]

/-- C9. A request to start a reconnection attempt while
`isCurrentlyReconnecting` is already true is a no-op: the state —
attempt counter, pending timer, both queues, everything — is returned
unchanged. -/
theorem c9_reentry_noop (o : ReconnectionOptions) (s : ClientState)
    (h : s.isCurrentlyReconnecting = true) :
    attemptReconnection o s = s := by
  simp [attemptReconnection, h]

theorem c9_reentry_noop_witness :
    ({ liveState with isCurrentlyReconnecting := true } :
        ClientState).isCurrentlyReconnecting = true ∧
    attemptReconnection defaultReconnectionOptions
        { liveState with isCurrentlyReconnecting := true } =
      { liveState with isCurrentlyReconnecting := true } :=
  ⟨rfl, c9_reentry_noop defaultReconnectionOptions
    { liveState with isCurrentlyReconnecting := true } rfl⟩

/-- C10. With the transport `OPEN`, sending a `Blob` succeeds for every
behaviour of the transport — the Blob-to-ArrayBuffer conversion and the
subsequent transport send are deferred (`.then`), so a fault there is
never reflected in `send`'s result — whereas a string or `ArrayBuffer`
payload surfaces the transport's synchronous fault as a send error. -/
theorem c10_blob_deferred (s : ClientState) (bytes bin : List Nat)
    (str : String) (fault : Option String) (r : String)
    (h : s.curState = ReadyState.OPEN) :
    (send s (Msg.blob bytes) fault).2 = Except.ok () ∧
    (send s (Msg.text str) (some r)).2 = Except.error ⟨r⟩ ∧
    (send s (Msg.binary bin) (some r)).2 = Except.error ⟨r⟩ := by
  simp [send, h]

theorem c10_blob_deferred_witness :
    liveState.curState = ReadyState.OPEN ∧
    ((send liveState (Msg.blob [0, 1]) (some "rejected")).2 = Except.ok () ∧
    (send liveState (Msg.text "hi") (some "rejected")).2 = Except.error ⟨"rejected"⟩ ∧
    (send liveState (Msg.binary [2, 3]) (some "rejected")).2 = Except.error ⟨"rejected"⟩) :=
  ⟨rfl, c10_blob_deferred liveState [0, 1] [2, 3] "hi" (some "rejected") "rejected" rfl⟩

/-- A reconnection policy with `enabled := true` and the remaining
defaults (used for the reconnection scenarios). -/
def enabledOpts : ReconnectionOptions :=
  { defaultReconnectionOptions with enabled := true }

/-- The policy of the spec's exhaustion scenario:
`{enabled: true, initialDelay: 100, maxDelay: 100, maxAttempts: 3,
backoffMultiplier: 2, jitter: false}`. -/
def opts3 : ReconnectionOptions :=
  { enabled := true
    initialDelay := 100
    maxDelay := 100
    maxAttempts := 3
    backoffMultiplier := 2
    jitter := false }

/-- While a state has `isCurrentlyReconnecting = true` with no pending
timer, every step other than an `open` of the current socket keeps it
that way and emits neither `reconnecting` nor `reconnect_failed`
events: `attemptReconnection` returns at its re-entry guard and the
timer cannot fire. -/
theorem stall_step (o : ReconnectionOptions) (s : ClientState) (i : Input)
    (hrec : s.isCurrentlyReconnecting = true) (ht : s.timerPending = false)
    (hi : i ≠ Input.wsOpen) :
    (stepInput o s i).isCurrentlyReconnecting = true ∧
    (stepInput o s i).timerPending = false ∧
    reconCount (stepInput o s i).events = reconCount s.events ∧
    failedCount (stepInput o s i).events = failedCount s.events := by
  cases i with
  | wsOpen => exact absurd rfl hi
  | wsClose code reason =>
      by_cases hm : s.manualClose = true <;>
      by_cases he : o.enabled = true <;>
        simp [stepInput, handleClose, attemptReconnection, pushEvent, setCur,
          hrec, ht, hm, he, reconCount_append, failedCount_append, reconCount,
          failedCount]
  | wsError =>
      by_cases hw : s.wiredByReconnect = true <;>
        simp [stepInput, handleError, pushEvent, hrec, ht, hw,
          reconCount_append, failedCount_append, reconCount, failedCount]
  | wsMessage m =>
      simp [stepInput, handleMessage, pushEvent, pushMessage, hrec, ht,
        reconCount_append, failedCount_append, reconCount, failedCount]
  | timerFires dialOk =>
      simp [stepInput, ht, hrec]
  | closeCall =>
      by_cases hc : s.curState = ReadyState.CONNECTING ∨ s.curState = ReadyState.OPEN <;>
        simp [stepInput, closeClient, setCur, hrec, hc]

theorem stall_run (o : ReconnectionOptions) (l : List Input)
    (hl : Input.wsOpen ∉ l) :
    ∀ s : ClientState, s.isCurrentlyReconnecting = true → s.timerPending = false →
    (runInputs o s l).isCurrentlyReconnecting = true ∧
    (runInputs o s l).timerPending = false ∧
    reconCount (runInputs o s l).events = reconCount s.events ∧
    failedCount (runInputs o s l).events = failedCount s.events := by
  induction l with
  | nil => intro s h1 h2; exact ⟨h1, h2, rfl, rfl⟩
  | cons i l ih =>
      intro s h1 h2
      have hi : i ≠ Input.wsOpen := fun h => hl (h ▸ List.mem_cons_self i l)
      have hs := stall_step o s i h1 h2 hi
      have hl' : Input.wsOpen ∉ l := fun h => hl (List.mem_cons_of_mem i h)
      have hr := ih hl' (stepInput o s i) hs.1 hs.2.1
      exact ⟨hr.1, hr.2.1, by rw [runInputs, hr.2.2.1, hs.2.2.1],
        by rw [runInputs, hr.2.2.2, hs.2.2.2]⟩

/-- The state reached with policy `opts3` when an established
connection drops, the reconnect timer for attempt 1 fires, the dial
constructor succeeds (a new CONNECTING socket), and that socket then
closes without ever opening (e.g. connection refused). -/
def stalledState : ClientState :=
  runInputs opts3 liveState
    [Input.wsClose 1006 "", Input.timerFires true, Input.wsClose 1006 ""]

/-- C2 (code bug evidence).  With `maxAttempts = 3 > 0` and
`enabled = true`, one reconnection attempt whose dialed socket closes
without opening leaves `isCurrentlyReconnecting` stuck at `true` with
no pending timer — `performReconnection` never resets the flag on this
path — so every later failure notification hits the re-entry guard: the
run has emitted exactly one `reconnecting` event and zero
`reconnect_failed` events, and every continuation that contains no
`open` of the current socket emits no further `reconnecting` and never
emits the `ReconnectFailed{attempt: 3}` event the claim requires. -/
theorem c2_reconnect_stall (l : List Input) (hl : Input.wsOpen ∉ l) :
    stalledState.isCurrentlyReconnecting = true ∧
    stalledState.timerPending = false ∧
    reconCount stalledState.events = 1 ∧
    failedCount stalledState.events = 0 ∧
    reconCount (runInputs opts3 stalledState l).events = 1 ∧
    failedCount (runInputs opts3 stalledState l).events = 0 := by
  have h1 : stalledState.isCurrentlyReconnecting = true := by decide
  have h2 : stalledState.timerPending = false := by decide
  have h3 : reconCount stalledState.events = 1 := by decide
  have h4 : failedCount stalledState.events = 0 := by decide
  have hr := stall_run opts3 l hl stalledState h1 h2
  exact ⟨h1, h2, h3, h4, by rw [hr.2.2.1, h3], by rw [hr.2.2.2, h4]⟩

theorem c2_reconnect_stall_witness :
    Input.wsOpen ∉ [Input.wsClose 1006 "", Input.timerFires true,
      Input.wsClose 1006 "", Input.wsClose 1006 ""] ∧
    (stalledState.isCurrentlyReconnecting = true ∧
    stalledState.timerPending = false ∧
    reconCount stalledState.events = 1 ∧
    failedCount stalledState.events = 0 ∧
    reconCount (runInputs opts3 stalledState [Input.wsClose 1006 "",
      Input.timerFires true, Input.wsClose 1006 "", Input.wsClose 1006 ""]).events = 1 ∧
    failedCount (runInputs opts3 stalledState [Input.wsClose 1006 "",
      Input.timerFires true, Input.wsClose 1006 "", Input.wsClose 1006 ""]).events = 0) :=
  ⟨by decide, c2_reconnect_stall [Input.wsClose 1006 "", Input.timerFires true,
    Input.wsClose 1006 "", Input.wsClose 1006 ""] (by decide)⟩

/-- The state reached when an established connection drops, the
reconnect timer fires, the dial succeeds and the new socket opens: the
client is live again on a replacement socket, while the original socket
created in `makeWebSocketClient` is CLOSED. -/
def reconnectedState : ClientState :=
  runInputs enabledOpts liveState
    [Input.wsClose 1006 "", Input.timerFires true, Input.wsOpen]

/-- C3 (code bug evidence).  After a successful reconnection the live
socket is a replacement (`curIsOrig = false`, `curState = OPEN`) and
the original socket is CLOSED.  Running the scope finalizer sets the
manual-close flag and cancels any pending timer, but — because the
source's finalizer closure captures the original `ws` local variable
instead of reading `client.ws` — its OPEN/CONNECTING check sees the
CLOSED original and it never requests the live handle's close: the live
socket is left OPEN. -/
theorem c3_finalizer_misses_live_socket :
    reconnectedState.curIsOrig = false ∧
    reconnectedState.curState = ReadyState.OPEN ∧
    reconnectedState.origState = ReadyState.CLOSED ∧
    (scopeFinalizer reconnectedState).manualClose = true ∧
    (scopeFinalizer reconnectedState).timerPending = false ∧
    (scopeFinalizer reconnectedState).curState = ReadyState.OPEN := by
  decide

/-- C4 (counterexample).  With reconnection enabled, a failed initial
dial (`error` then `close` before ever opening) makes
`makeWebSocketClient` surface a construction error — but the `close`
notification of that very first socket still runs the reconnection
logic: the leaked client state has a pending reconnection timer and a
`reconnecting{attempt: 1}` event, refuting "no reconnection attempt is
ever made for the initial dial, regardless of the policy's enabled
flag". -/
theorem c4_counterexample :
    (makeWebSocketClient enabledOpts (InitialDial.failsErrorClose 1006 "")).errorReason =
      some "Failed to establish WebSocket connection" ∧
    ((makeWebSocketClient enabledOpts
        (InitialDial.failsErrorClose 1006 "")).clientState.getD initState).timerPending = true ∧
    WsEvent.reconnecting 1 ∈
      ((makeWebSocketClient enabledOpts
        (InitialDial.failsErrorClose 1006 "")).clientState.getD initState).events := by
  decide

/-- C4 (amended).  A failure of the very first connection open — a
synchronous constructor throw, an `error`-then-`close` dial failure, or
the connect timeout — surfaces to the caller as a construction error of
`makeWebSocketClient`; and when the policy's `enabled` flag is `false`
no reconnection attempt is made for the initial dial (no pending timer,
zero `reconnecting` events).  (With `enabled = true` a reconnection
attempt IS scheduled by the failed socket's `close` notification, per
`c4_counterexample`.) -/
theorem c4_amended (o : ReconnectionOptions) (d : InitialDial)
    (hd : d ≠ InitialDial.opens) (he : o.enabled = false) :
    (makeWebSocketClient o d).errorReason.isSome = true ∧
    ((makeWebSocketClient o d).clientState.getD initState).timerPending = false ∧
    reconCount ((makeWebSocketClient o d).clientState.getD initState).events = 0 := by
  cases d with
  | constructorThrows => exact ⟨rfl, rfl, rfl⟩
  | opens => exact absurd rfl hd
  | failsErrorClose code reason =>
      refine ⟨rfl, ?_, ?_⟩ <;>
        simp [makeWebSocketClient, runInputs, stepInput, handleError,
          handleClose, initState, pushEvent, setCur, he, reconCount,
          List.countP_append, List.countP_cons]
  | timesOut => exact ⟨rfl, rfl, rfl⟩

theorem c4_amended_witness :
    (InitialDial.failsErrorClose 1006 "" ≠ InitialDial.opens) ∧
    defaultReconnectionOptions.enabled = false ∧
    ((makeWebSocketClient defaultReconnectionOptions
        (InitialDial.failsErrorClose 1006 "")).errorReason.isSome = true ∧
    ((makeWebSocketClient defaultReconnectionOptions
        (InitialDial.failsErrorClose 1006 "")).clientState.getD initState).timerPending = false ∧
    reconCount ((makeWebSocketClient defaultReconnectionOptions
        (InitialDial.failsErrorClose 1006 "")).clientState.getD initState).events = 0) :=
  ⟨by decide, rfl, c4_amended defaultReconnectionOptions
    (InitialDial.failsErrorClose 1006 "") (by decide) rfl⟩

/-- Attempt-accounting loop: while the policy permits further attempts,
each firing of the reconnect timer whose dial throws synchronously
re-enters `attemptReconnection`, which increments the counter by one
and schedules the next attempt. -/
theorem failLoop (o : ReconnectionOptions) (he : o.enabled = true) (j : Nat) :
    ∀ s : ClientState, s.isCurrentlyReconnecting = true → s.manualClose = false →
      s.timerPending = true → 1 ≤ s.reconnectAttemptsCount →
      (o.maxAttempts = 0 ∨ s.reconnectAttemptsCount + j ≤ o.maxAttempts) →
      (runInputs o s (List.replicate j
          (Input.timerFires false))).reconnectAttemptsCount =
        s.reconnectAttemptsCount + j ∧
      (runInputs o s (List.replicate j
          (Input.timerFires false))).isCurrentlyReconnecting = true ∧
      (runInputs o s (List.replicate j
          (Input.timerFires false))).manualClose = false ∧
      (runInputs o s (List.replicate j
          (Input.timerFires false))).timerPending = true := by
  induction j with
  | zero => intro s h1 h2 h3 h4 h5; exact ⟨rfl, h1, h2, h3⟩
  | succ j ih =>
      intro s h1 h2 h3 h4 h5
      have hguard : ¬(0 < o.maxAttempts ∧
          o.maxAttempts ≤ s.reconnectAttemptsCount) := by omega
      have hstep : stepInput o s (Input.timerFires false) =
          pushEvent
            { s with isCurrentlyReconnecting := true
                     reconnectAttemptsCount := s.reconnectAttemptsCount + 1
                     timerPending := true }
            (WsEvent.reconnecting (s.reconnectAttemptsCount + 1)) := by
        simp [stepInput, h3, performReconnection, h2, he, attemptReconnection,
          hguard]
      have hrepl : List.replicate (j + 1) (Input.timerFires false) =
          Input.timerFires false :: List.replicate j (Input.timerFires false) :=
        List.replicate_succ _ _
      rw [hrepl, runInputs, hstep]
      have := ih (pushEvent
            { s with isCurrentlyReconnecting := true
                     reconnectAttemptsCount := s.reconnectAttemptsCount + 1
                     timerPending := true }
            (WsEvent.reconnecting (s.reconnectAttemptsCount + 1)))
        rfl (by simp [pushEvent, h2]) rfl (by simp [pushEvent])
        (by simp [pushEvent]; omega)
      refine ⟨?_, this.2.1, this.2.2.1, this.2.2.2⟩
      rw [this.1]
      simp [pushEvent]
      omega

/-- C6 (counterexample).  Policy `{enabled: true, maxAttempts: 3}`,
starting from an established connection: the connection drops (attempt
1 is scheduled, counter = 1) and attempt 1's dial then fails — one
consecutive failed reconnection attempt observed by the controller.
The counter now reads 2, not 1: it is incremented when an attempt is
scheduled, not when it fails. -/
theorem c6_counterexample :
    (runInputs opts3 liveState
      [Input.wsClose 1006 "", Input.timerFires false]).reconnectAttemptsCount = 2 ∧
    (runInputs opts3 liveState
      [Input.wsClose 1006 "", Input.timerFires false]).reconnectAttemptsCount ≠ 1 := by
  decide

/-- C6 (amended).  The counter counts scheduled attempts: while the
`k`-th reconnection attempt is in flight — after the initial drop and
`k - 1` observed synchronous dial failures — `attemptCount = k` and
`isReconnecting = true` (for any `k ≥ 1` the policy allows); and upon
every successful `open`, from any state, the counter resets to 0 and
`isReconnecting` becomes `false`. -/
theorem c6_amended (o : ReconnectionOptions) (k : Nat) (s : ClientState)
    (code : Nat) (reason : String)
    (he : o.enabled = true) (hk : 1 ≤ k)
    (hb : o.maxAttempts = 0 ∨ k ≤ o.maxAttempts) :
    (runInputs o liveState (Input.wsClose code reason ::
        List.replicate (k - 1) (Input.timerFires false))).reconnectAttemptsCount = k ∧
    (runInputs o liveState (Input.wsClose code reason ::
        List.replicate (k - 1) (Input.timerFires false))).isCurrentlyReconnecting = true ∧
    (stepInput o s Input.wsOpen).reconnectAttemptsCount = 0 ∧
    (stepInput o s Input.wsOpen).isCurrentlyReconnecting = false := by
  have hguard0 : ¬(0 < o.maxAttempts ∧ o.maxAttempts ≤ 0) := by omega
  have hstep : stepInput o liveState (Input.wsClose code reason) =
      pushEvent
        { setCur (pushEvent (setCur liveState ReadyState.CLOSED)
            (WsEvent.closed code reason)) ReadyState.CLOSED with
            isCurrentlyReconnecting := true
            reconnectAttemptsCount := 1
            timerPending := true }
        (WsEvent.reconnecting 1) := by
    simp [stepInput, handleClose, liveState, handleOpen, initState, setCur,
      pushEvent, he, attemptReconnection, hguard0]
    omega
  rw [runInputs, hstep]
  have hloop := failLoop o he (k - 1)
    (pushEvent
        { setCur (pushEvent (setCur liveState ReadyState.CLOSED)
            (WsEvent.closed code reason)) ReadyState.CLOSED with
            isCurrentlyReconnecting := true
            reconnectAttemptsCount := 1
            timerPending := true }
        (WsEvent.reconnecting 1))
    rfl (by simp [pushEvent, setCur, liveState, handleOpen, initState]) rfl
    (by simp [pushEvent]) (by simp [pushEvent]; omega)
  refine ⟨?_, hloop.2.1, ?_, ?_⟩
  · rw [hloop.1]
    simp [pushEvent]
    omega
  · simp [stepInput, handleOpen, pushEvent, setCur]
  · simp [stepInput, handleOpen, pushEvent, setCur]

theorem c6_amended_witness :
    opts3.enabled = true ∧ 1 ≤ 2 ∧ (opts3.maxAttempts = 0 ∨ 2 ≤ opts3.maxAttempts) ∧
    ((runInputs opts3 liveState (Input.wsClose 1006 "" ::
        List.replicate (2 - 1) (Input.timerFires false))).reconnectAttemptsCount = 2 ∧
    (runInputs opts3 liveState (Input.wsClose 1006 "" ::
        List.replicate (2 - 1) (Input.timerFires false))).isCurrentlyReconnecting = true ∧
    (stepInput opts3 liveState Input.wsOpen).reconnectAttemptsCount = 0 ∧
    (stepInput opts3 liveState Input.wsOpen).isCurrentlyReconnecting = false) :=
  ⟨rfl, by decide, by decide,
    c6_amended opts3 2 liveState 1006 "" rfl (by decide) (by decide)⟩

/-- The message-channel payload a single input contributes. -/
def stepPayload : Input → List Msg
  | Input.wsMessage m => [m]
  | _ => []

theorem msgEventPayloads_append (l₁ l₂ : List WsEvent) :
    msgEventPayloads (l₁ ++ l₂) = msgEventPayloads l₁ ++ msgEventPayloads l₂ := by
  simp [msgEventPayloads, List.filterMap_append]

/-- Each step appends the same payload list (one payload for a received
message, nothing otherwise) to both the message-event projection of the
event channel and the message channel. -/
theorem c7_step (o : ReconnectionOptions) (s : ClientState) (i : Input) :
    msgEventPayloads (stepInput o s i).events =
      msgEventPayloads s.events ++ stepPayload i ∧
    (stepInput o s i).messages = s.messages ++ stepPayload i := by
  cases i with
  | wsOpen =>
      simp [stepInput, handleOpen, pushEvent, setCur, stepPayload,
        msgEventPayloads_append, msgEventPayloads]
  | wsClose code reason =>
      by_cases hm : s.manualClose = true <;>
      by_cases he : o.enabled = true <;>
      by_cases hr : s.isCurrentlyReconnecting = true <;>
      by_cases hg : 0 < o.maxAttempts ∧ o.maxAttempts ≤ s.reconnectAttemptsCount <;>
        simp [stepInput, handleClose, attemptReconnection, pushEvent, setCur,
          stepPayload, hm, he, hr, hg, msgEventPayloads_append, msgEventPayloads]
  | wsError =>
      by_cases hw : s.wiredByReconnect = true <;>
        simp [stepInput, handleError, pushEvent, stepPayload, hw,
          msgEventPayloads_append, msgEventPayloads]
  | wsMessage m =>
      simp [stepInput, handleMessage, pushEvent, pushMessage, stepPayload,
        msgEventPayloads_append, msgEventPayloads]
  | timerFires dialOk =>
      by_cases ht : s.timerPending = true
      · cases dialOk with
        | true => simp [stepInput, performReconnection, ht, stepPayload]
        | false =>
            by_cases hm : s.manualClose = true <;>
            by_cases he : o.enabled = true <;>
            by_cases hg : 0 < o.maxAttempts ∧
                o.maxAttempts ≤ s.reconnectAttemptsCount <;>
              simp [stepInput, performReconnection, attemptReconnection,
                pushEvent, ht, hm, he, hg, stepPayload,
                msgEventPayloads_append, msgEventPayloads]
      · simp [stepInput, ht, stepPayload]
  | closeCall =>
      by_cases hc : s.curState = ReadyState.CONNECTING ∨
          s.curState = ReadyState.OPEN <;>
        simp [stepInput, closeClient, setCur, hc, stepPayload]

/-- C7.  In every state whose event channel and message channel are
correlated — the sequence of `message`-event payloads equals the
sequence of values on the message channel — every run of serialized
inputs preserves the correlation: the `i`-th `MessageReceived` payload
always equals the `i`-th message-channel value, and the two sequences
are never reordered relative to each other (each received transport
message is pushed to the message channel and a `message` event with the
same payload is pushed to the event channel in the same step). -/
theorem c7_correlation (o : ReconnectionOptions) (s : ClientState)
    (l : List Input) (h : msgEventPayloads s.events = s.messages) :
    msgEventPayloads (runInputs o s l).events = (runInputs o s l).messages := by
  induction l generalizing s with
  | nil => exact h
  | cons i l ih =>
      rw [runInputs]
      exact ih (stepInput o s i)
        (by rw [(c7_step o s i).1, (c7_step o s i).2, h])

theorem c7_correlation_witness :
    msgEventPayloads liveState.events = liveState.messages ∧
    msgEventPayloads (runInputs enabledOpts liveState
        [Input.wsMessage (Msg.text "ping"), Input.wsClose 1006 "",
         Input.wsMessage (Msg.binary [1, 2])]).events =
      (runInputs enabledOpts liveState
        [Input.wsMessage (Msg.text "ping"), Input.wsClose 1006 "",
         Input.wsMessage (Msg.binary [1, 2])]).messages :=
  ⟨by decide, c7_correlation enabledOpts liveState
    [Input.wsMessage (Msg.text "ping"), Input.wsClose 1006 "",
     Input.wsMessage (Msg.binary [1, 2])] (by decide)⟩

end EffectWebSocket
